import Mathlib

/-!
Verification of the loader/bridge interface declared in src/pkg/wasm.d.ts.

The artifact under src is a generated TypeScript declaration file: it fixes
the shape of the module loader (`init`) and of the instantiated handle
(`InitOutput`).  We embed those declarations as data (type expressions,
field lists, parameter lists) and prove the spec claims about them.  The
loader body and the exception-store runtime live outside src, so their
behaviour is modelled from the spec where a claim needs it; such
definitions carry a doc comment starting with `Modelled from the spec:`.
-/

namespace Wasm

/-- TypeScript type expressions occurring in src/pkg/wasm.d.ts.  `promise t`
is `Promise<t>`, `or a b` is the union `a | b` (left-associated, as TS parses
it), and `namedRef s` is a reference to a named interface.  Every function
type in the file has only `number`-typed parameters, so `fn n r` records a
function type with `n` number parameters and return type `r`. -/
inductive Ty : Type
  | number
  | void
  | requestInfo
  | url
  | response
  | bufferSource
  | wasmModule
  | wasmMemory
  | wasmTable
  | promise (t : Ty)
  | or (a b : Ty)
  | fn (arity : Nat) (ret : Ty)
  | namedRef (s : String)
  deriving DecidableEq

/-- The declared union, from the source line
`export type InitInput = RequestInfo | URL | Response | BufferSource | WebAssembly.Module;`. -/
def InitInput : Ty :=
  Ty.or (Ty.or (Ty.or (Ty.or Ty.requestInfo Ty.url) Ty.response) Ty.bufferSource) Ty.wasmModule

/-- The leaves of a union type, in declaration order. -/
def Ty.variants : Ty → List Ty
  | Ty.or a b => a.variants ++ b.variants
  | t => [t]

/-- Whether a type is a Promise type. -/
def Ty.isPromise : Ty → Bool
  | Ty.promise _ => true
  | _ => false

/-- Whether a union leaf is a network-fetchable reference in the sense of the
spec (a request descriptor or a URL). -/
def Ty.isNetworkRef : Ty → Bool
  | Ty.requestInfo => true
  | Ty.url => true
  | _ => false

/-- One member of the `InitOutput` interface: its name, its declared type,
and whether it is marked `readonly` (all members in the source are). -/
structure Field where
  name : String
  ty : Ty
  readonly : Bool
  deriving DecidableEq

/-- Full source name of the binary closure-invoke export (six number
parameters, number result). -/
def invokeBinaryName : String :=
  "_dyn_core__ops__function__FnMut__A_B___Output___R_as_wasm_bindgen__closure__WasmClosure___describe__invoke__h3394ec600d01342b"

/-- Full source name of the nullary (context-only) closure-invoke export
(three number parameters, void result). -/
def invokeNullaryName : String :=
  "_dyn_core__ops__function__FnMut___A____Output___R_as_wasm_bindgen__closure__WasmClosure___describe__invoke__h61dd3d68460cfcb7"

/-- The `InitOutput` interface of src/pkg/wasm.d.ts, member by member, in
declaration order and with the declared types. -/
def InitOutput : List Field :=
  [ ⟨"memory", Ty.wasmMemory, true⟩,
    ⟨"start_app", Ty.fn 0 Ty.void, true⟩,
    ⟨"__wbindgen_malloc", Ty.fn 1 Ty.number, true⟩,
    ⟨"__wbindgen_realloc", Ty.fn 3 Ty.number, true⟩,
    ⟨"__wbindgen_export_2", Ty.wasmTable, true⟩,
    ⟨invokeBinaryName, Ty.fn 6 Ty.number, true⟩,
    ⟨invokeNullaryName, Ty.fn 3 Ty.void, true⟩,
    ⟨"__wbindgen_free", Ty.fn 2 Ty.void, true⟩,
    ⟨"__wbindgen_exn_store", Ty.fn 1 Ty.void, true⟩,
    ⟨"__wbindgen_start", Ty.fn 0 Ty.void, true⟩ ]

/-- Look up the declared type of an `InitOutput` member by its name. -/
def lookupTy (n : String) : Option Ty :=
  (InitOutput.find? (fun f => f.name == n)).map Field.ty

/-- A declared parameter of an exported function: its name, whether it is
optional (written `name?:` in the source), and its type. -/
structure Param where
  name : String
  optional : Bool
  ty : Ty
  deriving DecidableEq

/-- A top-level exported function declaration. -/
structure FunDecl where
  name : String
  params : List Param
  ret : Ty
  deriving DecidableEq

/-- The source line `export function start_app(): void;`. -/
def start_app : FunDecl := ⟨"start_app", [], Ty.void⟩

/-- The source line
`export default function init (module_or_path?: InitInput | Promise<InitInput>): Promise<InitOutput>;`. -/
def init : FunDecl :=
  ⟨"init",
   [⟨"module_or_path", true, Ty.or InitInput (Ty.promise InitInput)⟩],
   Ty.promise (Ty.namedRef "InitOutput")⟩

/-- Whether an `InitOutput` member is one of the generated closure-invoke
dispatch exports (their names all carry the generated closure-descriptor
marker, beginning with the nine characters of that marker). -/
def Field.isClosureInvoke (f : Field) : Bool :=
  f.name.toList.take 9 == "_dyn_core".toList

/-- Whether an `InitOutput` member is synchronous: if it is a function, its
return type is not a Promise, and a non-function member is not a Promise
value either. -/
def Field.isSynchronous (f : Field) : Bool :=
  match f.ty with
  | Ty.fn _ r => !r.isPromise
  | t => !t.isPromise

/-- Modelled from the spec: the loader body (wasm.js) is not under src, only
its declaration is.  A Module Source is exactly one of the four input
representations of section 3 of the spec; the promise wrapper is resolved
before the loader inspects the variant, so it is not a variant here. -/
inductive ModuleSource : Type
  | networkRequest
  | networkUrl
  | fetchedResponse
  | byteBuffer
  | precompiledModule
  deriving DecidableEq

/-- Modelled from the spec: a source is a network reference when it is a
request descriptor or a URL. -/
def ModuleSource.isNetworkRef : ModuleSource → Bool
  | ModuleSource.networkRequest => true
  | ModuleSource.networkUrl => true
  | _ => false

/-- Modelled from the spec: the outcome of an attempted network fetch
(failure covers both an unreachable host and a non-success status). -/
inductive FetchOutcome : Type
  | success
  | failure
  deriving DecidableEq

/-- Modelled from the spec: the observable result of a load attempt that is
relevant to the fetch path: either an instantiated handle or the
SourceUnavailable error with no handle. -/
inductive LoadResult : Type
  | handle
  | sourceUnavailable
  deriving DecidableEq

/-- Modelled from the spec: the externally visible steps a load performs. -/
inductive LoadStep : Type
  | fetchStep
  | instantiateStep
  deriving DecidableEq

/-- Modelled from the spec and the doc comment on `init` in wasm.d.ts
("If module_or_path is RequestInfo or URL, makes a request and for
everything else, calls WebAssembly.instantiate directly"): the step trace
and result of a load, per source variant, given the outcome a fetch would
have.  Sources that are not network references never consult the fetch
outcome. -/
def loadTrace (s : ModuleSource) (f : FetchOutcome) : List LoadStep × LoadResult :=
  match s with
  | ModuleSource.networkRequest =>
      match f with
      | FetchOutcome.success => ([LoadStep.fetchStep, LoadStep.instantiateStep], LoadResult.handle)
      | FetchOutcome.failure => ([LoadStep.fetchStep], LoadResult.sourceUnavailable)
  | ModuleSource.networkUrl =>
      match f with
      | FetchOutcome.success => ([LoadStep.fetchStep, LoadStep.instantiateStep], LoadResult.handle)
      | FetchOutcome.failure => ([LoadStep.fetchStep], LoadResult.sourceUnavailable)
  | ModuleSource.fetchedResponse => ([LoadStep.instantiateStep], LoadResult.handle)
  | ModuleSource.byteBuffer => ([LoadStep.instantiateStep], LoadResult.handle)
  | ModuleSource.precompiledModule => ([LoadStep.instantiateStep], LoadResult.handle)

/-- Modelled from the spec: the Exception Store is a single slot holding an
opaque numeric payload; only the setter's declaration
(`__wbindgen_exn_store: (a: number) => void`) is under src. -/
structure ExceptionStore where
  slot : Option Int
  deriving DecidableEq

/-- Modelled from the spec: the module-side setter records the payload into
the single slot, replacing whatever was there. -/
def store_exception (v : Int) (_s : ExceptionStore) : ExceptionStore := ⟨some v⟩

/-- Modelled from the spec: the host-side read returns the slot's current
content. -/
def read_exception (s : ExceptionStore) : Option Int := s.slot

/-- Modelled from the spec: the host-side clear empties the slot. -/
def clear_exception (_s : ExceptionStore) : ExceptionStore := ⟨none⟩

/-- C1, counterexample: the claim says the loader accepts an optional second
parameter carrying a host-supplied Linear Memory.  The declared signature of
`init` has exactly one parameter, the optional module source, and its type is
the source union, not a memory type — there is no second parameter at all. -/
theorem C1_no_memory_param_counterexample :
    init.params = [⟨"module_or_path", true, Ty.or InitInput (Ty.promise InitInput)⟩] ∧
    Ty.or InitInput (Ty.promise InitInput) ≠ Ty.wasmMemory := by
  decide

/-- C1, amended: the loader's declared signature exposes exactly one
parameter, the optional module source; no host-supplied Linear Memory
parameter (and hence no caller-visible IncompatibleMemory path) is part of
the declared interface. -/
theorem C1_single_optional_source_param :
    init.params.length = 1 ∧
    init.params.map Param.optional = [true] ∧
    init.params.map Param.ty = [Ty.or InitInput (Ty.promise InitInput)] := by
  decide

/-- C2, counterexample: the claim says the binary dispatch export takes five
arguments and the nullary one takes two.  The declared types take six and
three number arguments respectively. -/
theorem C2_invoke_arity_counterexample :
    lookupTy invokeBinaryName = some (Ty.fn 6 Ty.number) ∧
    lookupTy invokeBinaryName ≠ some (Ty.fn 5 Ty.number) ∧
    lookupTy invokeNullaryName = some (Ty.fn 3 Ty.void) ∧
    lookupTy invokeNullaryName ≠ some (Ty.fn 2 Ty.void) := by
  decide

/-- C2, amended: the handle exposes exactly two closure-invoke dispatch
exports; the binary one takes six number arguments and returns a status
code, and the nullary one takes three number arguments and returns
nothing. -/
theorem C2_two_dispatch_exports :
    (InitOutput.filter Field.isClosureInvoke).map Field.name =
      [invokeBinaryName, invokeNullaryName] ∧
    lookupTy invokeBinaryName = some (Ty.fn 6 Ty.number) ∧
    lookupTy invokeNullaryName = some (Ty.fn 3 Ty.void) := by
  decide

/-- C3, counterexample: the claim requires the handle to expose a host-side
exception getter/clear.  The handle's members are exactly the ten listed
here — the memory view, the entry point, malloc, realloc, the dispatch
table, the two closure invokes, free, the exception-store setter, and the
start hook — and the only member concerning the exception store is the
setter, typed `(a: number) => void` (it consumes a payload and returns
nothing), so no member is a host-side getter or clear. -/
theorem C3_no_exception_getter_counterexample :
    InitOutput.map Field.name =
      ["memory", "start_app", "__wbindgen_malloc", "__wbindgen_realloc",
       "__wbindgen_export_2", invokeBinaryName, invokeNullaryName,
       "__wbindgen_free", "__wbindgen_exn_store", "__wbindgen_start"] ∧
    lookupTy "__wbindgen_exn_store" = some (Ty.fn 1 Ty.void) := by
  decide

/-- C3, amended: for every successful load the handle exposes the Linear
Memory view, allocate/reallocate/free, the two invoke operations, the
module-side exception-store setter, the automatically invoked start-up
hook, and the module-specific entry point; the host-side exception
getter/clear is implied host logic, not an exposed member. -/
theorem C3_handle_exports :
    Field.mk "memory" Ty.wasmMemory true ∈ InitOutput ∧
    Field.mk "__wbindgen_malloc" (Ty.fn 1 Ty.number) true ∈ InitOutput ∧
    Field.mk "__wbindgen_realloc" (Ty.fn 3 Ty.number) true ∈ InitOutput ∧
    Field.mk "__wbindgen_free" (Ty.fn 2 Ty.void) true ∈ InitOutput ∧
    Field.mk invokeBinaryName (Ty.fn 6 Ty.number) true ∈ InitOutput ∧
    Field.mk invokeNullaryName (Ty.fn 3 Ty.void) true ∈ InitOutput ∧
    Field.mk "__wbindgen_exn_store" (Ty.fn 1 Ty.void) true ∈ InitOutput ∧
    Field.mk "__wbindgen_start" (Ty.fn 0 Ty.void) true ∈ InitOutput ∧
    Field.mk "start_app" (Ty.fn 0 Ty.void) true ∈ InitOutput := by
  decide

/-- C4: the loader's single parameter `module_or_path` is declared optional,
so a zero-argument invocation is part of the public interface. -/
theorem C4_zero_argument_call_allowed :
    init.params.length = 1 ∧ init.params.map Param.optional = [true] := by
  decide

/-- C5: the source union's variants are exactly a network-fetchable
reference (the request-descriptor and URL leaves), an already-obtained
response object, a raw byte buffer, and a precompiled module object; the
loader's parameter optionally wraps that union in a deferred value, and the
loader returns a deferred value resolving to the instantiated handle. -/
theorem C5_source_variants :
    InitInput.variants =
      [Ty.requestInfo, Ty.url, Ty.response, Ty.bufferSource, Ty.wasmModule] ∧
    InitInput.variants.map Ty.isNetworkRef = [true, true, false, false, false] ∧
    init.params.map Param.ty = [Ty.or InitInput (Ty.promise InitInput)] ∧
    init.ret = Ty.promise (Ty.namedRef "InitOutput") := by
  decide

/-- C6: the loader performs a fetch step if and only if the source is a
network reference; every other variant goes straight to instantiation and
yields a handle, and a failed fetch on a network reference yields
SourceUnavailable and no handle. -/
theorem C6_fetch_iff_network_ref (s : ModuleSource) (f : FetchOutcome) :
    (LoadStep.fetchStep ∈ (loadTrace s f).1 ↔ s.isNetworkRef = true) ∧
    (s.isNetworkRef = false →
      (loadTrace s f).1 = [LoadStep.instantiateStep] ∧
      (loadTrace s f).2 = LoadResult.handle) ∧
    (s.isNetworkRef = true → f = FetchOutcome.failure →
      (loadTrace s f).2 = LoadResult.sourceUnavailable ∧
      (loadTrace s f).2 ≠ LoadResult.handle) := by
  cases s <;> cases f <;> decide

/-- C6, witness: the property instantiated at a URL source whose fetch
fails. -/
theorem C6_fetch_iff_network_ref_witness :
    (LoadStep.fetchStep ∈ (loadTrace ModuleSource.networkUrl FetchOutcome.failure).1 ↔
      ModuleSource.networkUrl.isNetworkRef = true) ∧
    (ModuleSource.networkUrl.isNetworkRef = false →
      (loadTrace ModuleSource.networkUrl FetchOutcome.failure).1 = [LoadStep.instantiateStep] ∧
      (loadTrace ModuleSource.networkUrl FetchOutcome.failure).2 = LoadResult.handle) ∧
    (ModuleSource.networkUrl.isNetworkRef = true →
      FetchOutcome.failure = FetchOutcome.failure →
      (loadTrace ModuleSource.networkUrl FetchOutcome.failure).2 = LoadResult.sourceUnavailable ∧
      (loadTrace ModuleSource.networkUrl FetchOutcome.failure).2 ≠ LoadResult.handle) :=
  C6_fetch_iff_network_ref ModuleSource.networkUrl FetchOutcome.failure

/-- C7: allocate takes a single size and returns an offset, reallocate
takes an offset, an old size and a new size and returns an offset, and
free takes an offset and a size and returns nothing, exactly as declared. -/
theorem C7_memory_op_shapes :
    lookupTy "__wbindgen_malloc" = some (Ty.fn 1 Ty.number) ∧
    lookupTy "__wbindgen_realloc" = some (Ty.fn 3 Ty.number) ∧
    lookupTy "__wbindgen_free" = some (Ty.fn 2 Ty.void) := by
  decide

/-- C8: only the loader returns a deferred value; every member of the
handle is synchronous — no member, function-typed or otherwise, is or
returns a Promise. -/
theorem C8_only_load_is_async :
    init.ret.isPromise = true ∧
    InitOutput.all Field.isSynchronous = true := by
  decide

/-- C9: storing a value in the single-slot Exception Store and then reading
it, with no intervening store, returns exactly the stored value. -/
theorem C9_exception_store_round_trip (v : Int) (s : ExceptionStore) :
    read_exception (store_exception v s) = some v := rfl

/-- C9, witness: the round trip at a concrete payload and starting state. -/
theorem C9_exception_store_round_trip_witness :
    read_exception (store_exception 7 ⟨none⟩) = some 7 :=
  C9_exception_store_round_trip 7 ⟨none⟩

/-- C10: the handle exposes the dispatch table itself as a raw
WebAssembly.Table member named __wbindgen_export_2. -/
theorem C10_dispatch_table_exported :
    Field.mk "__wbindgen_export_2" Ty.wasmTable true ∈ InitOutput := by
  decide

end Wasm
